import Mathlib

/-!
# Verification of the fixpanic CLI tool

Shallow embedding of the parts of the `fixpanic` CLI that the recorded
claims are about, together with theorems settling those claims.

Conventions used throughout:
* Go strings are Lean `String`s; where byte-level slicing matters
  (the hand-written `contains` helper) they are `List Char`.
* Fallible OS and network calls (HTTP GET, `os.Create`, `io.Copy`,
  `os.Chmod`, `os.Rename`, `os.Remove`, process signalling, ...) are
  driven by an explicit environment of success/failure flags, and the
  files they touch are an explicit record threaded through the function.
* A Go function returning `error` is modelled with result `Option String`
  (`none` = nil error) or `Except String α` when it also returns a value.
-/

namespace FixPanic

/-! ## Security rules — `cmd/agent_validate.go` -/

/-- The allow/deny rule set loaded by `fixpanic agent validate`
(`SecurityRules` in `cmd/agent_validate.go`). -/
structure SecurityRules where
  allow : List String
  deny : List String
deriving DecidableEq

/-- `isCommandAllowed` from `cmd/agent_validate.go` lines 247–265.
Go's `regexp.MatchString` is standard-library code, so the matcher is a
parameter `matchString pattern command`; the function iterates the deny
list first (returning `false` on the first match), then the allow list
(returning `true` on the first match), and finally returns `false`. -/
def isCommandAllowed (matchString : String → String → Bool)
    (rules : SecurityRules) (command : String) : Bool :=
  if rules.deny.any (fun pattern => matchString pattern command) then
    false
  else
    rules.allow.any (fun pattern => matchString pattern command)

/-! ## Agent configuration — `internal/config/config.go` -/

/-- The `agent:` section of the YAML configuration. -/
structure AgentSection where
  id : String
  apiKey : String
  socketServer : String
deriving DecidableEq

/-- The `security:` section of the YAML configuration. -/
structure SecuritySection where
  rulesFile : String
deriving DecidableEq

/-- The `logging:` section of the YAML configuration. -/
structure LoggingSection where
  level : String
  file : String
deriving DecidableEq

/-- `AgentConfig` from `internal/config/config.go`. -/
structure AgentConfig where
  agent : AgentSection
  security : SecuritySection
  logging : LoggingSection
deriving DecidableEq

/-- `DefaultConfig` from `internal/config/config.go`. -/
def DefaultConfig : AgentConfig :=
  { agent := { id := "", apiKey := "", socketServer := "socket.fixpanic.com:8080" }
    security := { rulesFile := "/etc/fixpanic/security-rules.yaml" }
    logging := { level := "info", file := "/var/log/fixpanic/agent.log" } }

/-- `(*AgentConfig).Validate` from `internal/config/config.go` lines 84–96:
the returned `Option String` is the Go `error` (`none` = nil). -/
def AgentConfig.Validate (c : AgentConfig) : Option String :=
  if c.agent.id == "" then
    some "agent ID is required"
  else if c.agent.apiKey == "" then
    some "agent API key is required"
  else if c.agent.socketServer == "" then
    some "socket server address is required"
  else
    none

/-! ## The hand-written substring helper — `internal/process/process.go` -/

/-- `containsSubstring` from `internal/process/process.go`: a linear scan
`for i := 0; i <= len(s)-len(substr); i++` comparing `s[i:i+len(substr)]`
with `substr`.  When `len(s) - len(substr)` is negative the Go loop body
never runs, hence the guard. -/
def containsSubstring (s substr : List Char) : Bool :=
  if substr.length ≤ s.length then
    (List.range (s.length - substr.length + 1)).any
      (fun i => (s.drop i).take substr.length == substr)
  else
    false

/-- `contains` from `internal/process/process.go` lines 99–116:
`len(s) >= len(substr) && (s == substr || (len(s) > len(substr) &&
(s[:len(substr)] == substr || s[len(s)-len(substr):] == substr ||
containsSubstring(s, substr))))`. -/
def contains (s substr : List Char) : Bool :=
  decide (substr.length ≤ s.length) &&
    (s == substr ||
      (decide (substr.length < s.length) &&
        (s.take substr.length == substr ||
          s.drop (s.length - substr.length) == substr ||
          containsSubstring s substr)))

/-- Standard substring containment, the specification `contains` is
compared against: `substr` occurs contiguously inside `s`. -/
def IsSubstringOf (substr s : List Char) : Prop :=
  ∃ pre post, s = pre ++ substr ++ post

/-! ## Platform detection and download URLs — `internal/platform/platform.go` -/

/-- `GetFixPanicAgentBinaryName` from `internal/platform/platform.go`
lines 218–224, with `runtime.GOOS` made an explicit argument. -/
def GetFixPanicAgentBinaryName (goos : String) : String :=
  if goos == "windows" then
    "fixpanic-connectivity-layer.exe"
  else
    "fixpanic-connectivity-layer"

/-- OS normalisation from `GetFixPanicAgentPlatformInfo`
(`internal/platform/platform.go`): the `switch goos` statement. -/
def normalizeOS (goos : String) : Except String String :=
  if goos == "linux" then .ok "linux"
  else if goos == "darwin" then .ok "darwin"
  else if goos == "windows" then .ok "windows"
  else .error ("unsupported operating system: " ++ goos)

/-- Architecture normalisation from `GetFixPanicAgentPlatformInfo`
(`internal/platform/platform.go`): the `switch goarch` statement. -/
def normalizeArch (goarch : String) : Except String String :=
  if goarch == "amd64" || goarch == "x86_64" then .ok "amd64"
  else if goarch == "arm64" || goarch == "aarch64" then .ok "arm64"
  else if goarch == "386" || goarch == "i386" || goarch == "i686" then .ok "386"
  else if goarch == "arm" || goarch == "armv7" then .ok "arm"
  else .error ("unsupported architecture: " ++ goarch)

/-- `GetFixPanicAgentPlatformInfo` from `internal/platform/platform.go`,
with `runtime.GOOS` / `runtime.GOARCH` made explicit arguments. -/
def GetFixPanicAgentPlatformInfo (goos goarch : String) :
    Except String (String × String) :=
  match normalizeOS goos with
  | .error e => .error e
  | .ok os =>
    match normalizeArch goarch with
    | .error e => .error e
    | .ok arch => .ok (os, arch)

/-- The `baseURL` literal in `GetFixPanicAgentDownloadURL`. -/
def agentReleasesBaseURL : String :=
  "https://github.com/fixpanic/fixpanic-connectivity-layer-release/releases"

/-- `GetFixPanicAgentDownloadURL` from `internal/platform/platform.go`
lines 272–287: `{base}/latest/download/fixpanic-connectivity-layer-{os}-{arch}`
for `"latest"`, `{base}/download/{version}/fixpanic-connectivity-layer-{os}-{arch}`
otherwise. -/
def GetFixPanicAgentDownloadURL (goos goarch version : String) :
    Except String String :=
  match GetFixPanicAgentPlatformInfo goos goarch with
  | .error e => .error ("failed to get platform info: " ++ e)
  | .ok (os, arch) =>
    if version == "latest" then
      .ok (agentReleasesBaseURL ++ "/latest/download/fixpanic-connectivity-layer-"
        ++ os ++ "-" ++ arch)
    else
      .ok (agentReleasesBaseURL ++ "/download/" ++ version
        ++ "/fixpanic-connectivity-layer-" ++ os ++ "-" ++ arch)

/-- Modelled from the spec: the download URL pattern the spec claims,
`{base}/{version}/download/{binary-name}-{os}-{arch}[.exe]`, with the
version segment before the download segment for both `"latest"` and
pinned versions and the `.exe` suffix exactly when the OS is Windows. -/
def specClaimedDownloadURL (goos goarch version : String) :
    Except String String :=
  match GetFixPanicAgentPlatformInfo goos goarch with
  | .error e => .error ("failed to get platform info: " ++ e)
  | .ok (os, arch) =>
    .ok (agentReleasesBaseURL ++ "/" ++ version ++ "/download/fixpanic-connectivity-layer-"
      ++ os ++ "-" ++ arch ++ (if os == "windows" then ".exe" else ""))

/-! ## Agent binary download — `DownloadFixPanicAgent` in
`internal/connectivity/manager.go` (source file `unnamed/part_003`) -/

/-- A file on disk: abstract content plus the executable bit. -/
structure FileData where
  content : Nat
  exec : Bool
deriving DecidableEq

/-- The two paths `DownloadFixPanicAgent` touches: the temporary file
`binaryPath + ".tmp"` and the final binary path. -/
structure DlFs where
  tmp : Option FileData
  final : Option FileData
deriving DecidableEq

/-- Success/failure of each fallible call inside `DownloadFixPanicAgent`:
the HTTP GET, the HTTP status check, `os.Create`, `io.Copy`, `os.Chmod`
and `os.Rename`. -/
structure DlEnv where
  httpOk : Bool
  statusOk : Bool
  createOk : Bool
  copyOk : Bool
  chmodOk : Bool
  renameOk : Bool
deriving DecidableEq

/-- Filesystem operations recorded while `DownloadFixPanicAgent` runs
(`chmodFinal` never occurs in the code; it is the step the spec's
"temp-file-then-rename, then chmod +x" wording describes). -/
inductive DlEv
  | createTmp
  | copyBody
  | chmodTmp
  | chmodFinal
  | renameTmpToFinal
  | removeTmp
deriving DecidableEq

/-- Result of a `DownloadFixPanicAgent` run: the Go `error`
(`none` = nil), the final filesystem, and the operation trace. -/
structure DlOutcome where
  result : Option String
  fs : DlFs
  trace : List DlEv
deriving DecidableEq

/-- `DownloadFixPanicAgent` from `internal/connectivity/manager.go`
(`unnamed/part_003` lines 128–180): GET the release URL, create
`binaryPath + ".tmp"`, copy the body into it, `chmod 0755` the temporary
file, rename it onto the final path; on a copy, chmod or rename failure
the temporary file is removed with `os.Remove` and an error returned.
`body` is the HTTP response body. -/
def DownloadFixPanicAgent (env : DlEnv) (fs : DlFs) (body : Nat) : DlOutcome :=
  if !env.httpOk then
    { result := some "failed to download binary", fs := fs, trace := [] }
  else if !env.statusOk then
    { result := some "failed to download binary: HTTP status not OK", fs := fs, trace := [] }
  else if !env.createOk then
    { result := some "failed to create temporary file", fs := fs, trace := [] }
  else
    -- os.Create truncates: the temporary file now exists and is empty
    let fs1 : DlFs := { fs with tmp := some { content := 0, exec := false } }
    if !env.copyOk then
      { result := some "failed to save binary"
        fs := { fs1 with tmp := none }
        trace := [.createTmp, .removeTmp] }
    else
      let fs2 : DlFs := { fs1 with tmp := some { content := body, exec := false } }
      if !env.chmodOk then
        { result := some "failed to make binary executable"
          fs := { fs2 with tmp := none }
          trace := [.createTmp, .copyBody, .removeTmp] }
      else
        let fs3 : DlFs := { fs2 with tmp := some { content := body, exec := true } }
        if !env.renameOk then
          { result := some "failed to move binary to final location"
            fs := { fs3 with tmp := none }
            trace := [.createTmp, .copyBody, .chmodTmp, .removeTmp] }
        else
          { result := none
            fs := { tmp := none, final := some { content := body, exec := true } }
            trace := [.createTmp, .copyBody, .chmodTmp, .renameTmpToFinal] }

/-- Modelled from the spec: the install sequence the spec's words
"written atomically via temp-file-then-rename, then chmod +x" describe —
the rename precedes the chmod and the chmod therefore applies to the
final path. -/
def specClaimedDownloadTrace : List DlEv :=
  [.createTmp, .copyBody, .renameTmpToFinal, .chmodFinal]

/-! ## Agent upgrade — `cmd/agent_upgrade.go`

Process-state convention: `env.pids` are the agent processes actually
running when the command starts; `getAllAgentProcessPIDs` reports them
when `env.pidsOk` holds and fails otherwise; a successful
`StopProcess pid` call terminates that process and a failed one leaves
it running. -/

/-- The environment a `runAgentUpgrade` run observes: success/failure of
`GetPlatformInfo`, whether `IsFixPanicAgentInstalled` holds, the outcome
of `getAllAgentProcessPIDs`, per-pid `StopProcess` success, the outcome
of `EnsureLatestAgent`, and whether the `agent start` restart succeeds. -/
structure UpgradeEnv where
  platformOk : Bool
  installed : Bool
  pidsOk : Bool
  pids : List Nat
  stopOk : Nat → Bool
  upgradeOk : Bool
  startOk : Bool

/-- Observable outcome of `runAgentUpgrade`: the Go `error`, the pids
whose `StopProcess` call succeeded, whether the restart step (step 5,
`agentStartCmd.RunE`) was invoked, and whether some agent process is
running once the command returns. -/
structure UpgradeOutcome where
  result : Option String
  stoppedPids : List Nat
  startInvoked : Bool
  runningAfter : Bool

/-- `runAgentUpgrade` from `cmd/agent_upgrade.go` lines 65–132: check
platform and installation, collect agent pids (a lookup error is only a
warning), stop each found pid (`agentWasRunning` becomes true when at
least one stop succeeded), run `EnsureLatestAgent`, and invoke the
restart step exactly when `agentWasRunning`; a restart failure is only a
warning.  Version lookups only produce log output and are omitted. -/
def runAgentUpgrade (env : UpgradeEnv) : UpgradeOutcome :=
  if !env.platformOk then
    { result := some "failed to get platform info"
      stoppedPids := []
      startInvoked := false
      runningAfter := !env.pids.isEmpty }
  else if !env.installed then
    { result := some "FixPanic Agent is not installed"
      stoppedPids := []
      startInvoked := false
      runningAfter := !env.pids.isEmpty }
  else
    let stopped := if env.pidsOk then env.pids.filter env.stopOk else []
    let survivors := if env.pidsOk then env.pids.filter (fun p => !env.stopOk p) else env.pids
    let agentWasRunning := env.pidsOk && !env.pids.isEmpty && !stopped.isEmpty
    if !env.upgradeOk then
      { result := some "failed to upgrade agent binary"
        stoppedPids := stopped
        startInvoked := false
        runningAfter := !survivors.isEmpty }
    else
      { result := none
        stoppedPids := stopped
        startInvoked := agentWasRunning
        runningAfter := !survivors.isEmpty || (agentWasRunning && env.startOk) }

/-! ## CLI self-upgrade binary replacement — `replaceBinary` in
`cmd/upgrade.go` (source file `unnamed/part_010`) -/

/-- The three paths `replaceBinary` touches: the current binary, the
freshly downloaded binary at `newPath`, and `currentPath + ".backup"`. -/
structure RBFs where
  current : Option FileData
  newBin : Option FileData
  backup : Option FileData
deriving DecidableEq

/-- Success/failure of the fallible calls inside `replaceBinary`:
`copyFile` (current → backup), `os.Rename(newPath, currentPath)`, the
backup-restoring `os.Rename(backupPath, currentPath)`, `os.Chmod`, and
the final `os.Remove(backupPath)`. -/
structure RBEnv where
  copyOk : Bool
  renameOk : Bool
  restoreOk : Bool
  chmodOk : Bool
  removeOk : Bool
deriving DecidableEq

/-- `replaceBinary` from `cmd/upgrade.go` (`unnamed/part_010` lines
401–451): copy the current binary to `currentPath + ".backup"` (failure
is only a warning), atomically rename the new binary onto the current
path; on rename failure attempt to rename the backup back onto the
current path and return an error either way; on success chmod the
binary (warning on failure) and remove the backup (warning on failure).
`copyFile` needs the source to exist, and each rename needs its source
file to exist. -/
def replaceBinary (env : RBEnv) (fs : RBFs) : Option String × RBFs :=
  let fs1 := if env.copyOk && fs.current.isSome then { fs with backup := fs.current } else fs
  if env.renameOk && fs1.newBin.isSome then
    let fs2 : RBFs := { fs1 with current := fs1.newBin, newBin := none }
    let fs3 : RBFs :=
      if env.chmodOk then
        { fs2 with current := fs2.current.map (fun f => { f with exec := true }) }
      else fs2
    let fs4 : RBFs := if env.removeOk && fs3.backup.isSome then { fs3 with backup := none } else fs3
    (none, fs4)
  else
    if env.restoreOk && fs1.backup.isSome then
      (some "failed to replace binary (backup restored)",
        { fs1 with current := fs1.backup, backup := none })
    else
      (some "failed to replace binary", fs1)

/-! ## Agent install — `cmd/agent_install.go` -/

/-- Persistent state `runAgentInstall` reads and writes: the agent
binary, the YAML configuration file, and whether the lib/bin/config/log
directories exist. -/
structure InstallFs where
  binary : Option FileData
  configFile : Option AgentConfig
  dirsCreated : Bool
deriving DecidableEq

/-- Environment of a `runAgentInstall` run: `GetPlatformInfo` and
`CreateDirectories` outcomes, the `--force` flag, the flag values that
become the configuration, the `viper` fallback for the socket server,
and the `Download` / `SaveConfig` outcomes.  Systemd service steps only
produce warnings and are omitted. -/
structure InstallEnv where
  platformOk : Bool
  mkdirOk : Bool
  force : Bool
  agentID : String
  agentAPIKey : String
  socketServer : String
  viperSocketServer : String
  downloadOk : Bool
  saveOk : Bool

/-- Observable outcome of `runAgentInstall`: the Go `error`, the final
filesystem, and whether the download step was reached. -/
structure InstallOutcome where
  result : Option String
  fs : InstallFs
  downloadAttempted : Bool

/-- The configuration `runAgentInstall` builds: `DefaultConfig` with the
`--agent-id` and `--api-key` flags filled in and the socket server
overridden by the `--socket-server` flag, else by `viper`. -/
def buildInstallConfig (env : InstallEnv) : AgentConfig :=
  let base := DefaultConfig
  let withCreds : AgentConfig :=
    { base with agent := { base.agent with id := env.agentID, apiKey := env.agentAPIKey } }
  if env.socketServer != "" then
    { withCreds with agent := { withCreds.agent with socketServer := env.socketServer } }
  else if env.viperSocketServer != "" then
    { withCreds with agent := { withCreds.agent with socketServer := env.viperSocketServer } }
  else
    withCreds

/-- `runAgentInstall` from `cmd/agent_install.go` lines 55–160: platform
info, `CreateDirectories`, the already-installed check (error unless
`--force`), `Download("latest")` (on failure the temp-file protocol of
`Download` leaves the binary unchanged), build and `Validate` the
configuration, `SaveConfig`; the systemd service steps that follow only
log warnings. `body` is the downloaded binary content. -/
def runAgentInstall (env : InstallEnv) (fs : InstallFs) (body : Nat) : InstallOutcome :=
  if !env.platformOk then
    { result := some "failed to get platform info", fs := fs, downloadAttempted := false }
  else if !env.mkdirOk then
    { result := some "failed to create directories", fs := fs, downloadAttempted := false }
  else
    let fs1 : InstallFs := { fs with dirsCreated := true }
    if fs1.binary.isSome && !env.force then
      { result := some "agent is already installed. Use --force to reinstall"
        fs := fs1
        downloadAttempted := false }
    else if !env.downloadOk then
      { result := some "failed to download connectivity layer"
        fs := fs1
        downloadAttempted := true }
    else
      let fs2 : InstallFs := { fs1 with binary := some { content := body, exec := true } }
      let cfg := buildInstallConfig env
      match cfg.Validate with
      | some e =>
        { result := some ("invalid configuration: " ++ e), fs := fs2, downloadAttempted := true }
      | none =>
        if !env.saveOk then
          { result := some "failed to save configuration", fs := fs2, downloadAttempted := true }
        else
          { result := none
            fs := { fs2 with configFile := some cfg }
            downloadAttempted := true }

/-! ## Agent uninstall — `cmd/agent_uninstall.go` -/

/-- Persistent state `runAgentUninstall` reads and writes: the agent
binary, the configuration file, the systemd service file, and whether
the lib/config/log directories exist. -/
structure UninstallFs where
  binary : Option FileData
  configFile : Option AgentConfig
  serviceFile : Option Nat
  libDir : Bool
  configDir : Bool
  logDir : Bool
deriving DecidableEq

/-- Environment of a `runAgentUninstall` run: `GetPlatformInfo` outcome,
the `--force` flag, the interactive confirmation answer, systemd
availability, success of the service/binary/config removals, and whether
each directory is empty (`os.Remove` on a directory only succeeds when
it is empty). -/
structure UninstallEnv where
  platformOk : Bool
  force : Bool
  response : String
  systemdAvailable : Bool
  serviceUninstallOk : Bool
  removeBinaryOk : Bool
  removeConfigOk : Bool
  libDirEmpty : Bool
  configDirEmpty : Bool
  logDirEmpty : Bool

/-- `runAgentUninstall` from `cmd/agent_uninstall.go` lines 39–125:
platform info; when `IsFixPanicAgentInstalled` is false print a notice
and return nil immediately; otherwise confirm (unless `--force`), stop
and uninstall the systemd service (warnings only), remove the binary,
the configuration file and any empty directories. -/
def runAgentUninstall (env : UninstallEnv) (fs : UninstallFs) :
    Option String × UninstallFs :=
  if !env.platformOk then
    (some "failed to get platform info", fs)
  else if fs.binary.isNone then
    (none, fs)
  else if !env.force && env.response != "y" && env.response != "Y" then
    (none, fs)
  else
    let fs1 := if env.systemdAvailable && env.serviceUninstallOk then
      { fs with serviceFile := none } else fs
    let fs2 := if env.removeBinaryOk then { fs1 with binary := none } else fs1
    let fs3 := if env.removeConfigOk then { fs2 with configFile := none } else fs2
    let fs4 : UninstallFs :=
      { fs3 with
        libDir := fs3.libDir && !env.libDirEmpty
        configDir := fs3.configDir && !env.configDirEmpty
        logDir := fs3.logDir && !env.logDirEmpty }
    (none, fs4)

/-! ## Theorems -/

deriving instance DecidableEq for Except

/-- Claim C1: for every rule set and command, if at least one deny
pattern matches the command then `isCommandAllowed` returns `false`,
whatever the allow patterns do. -/
theorem isCommandAllowed_deny_wins
    (matchString : String → String → Bool) (rules : SecurityRules)
    (command pattern : String)
    (hmem : pattern ∈ rules.deny) (hmatch : matchString pattern command = true) :
    isCommandAllowed matchString rules command = false := by
  unfold isCommandAllowed
  have hd : rules.deny.any (fun p => matchString p command) = true :=
    List.any_eq_true.mpr ⟨pattern, hmem, hmatch⟩
  simp [hd]

/-- Witness for C1: the pattern `"rm -rf"` is in both lists and matches
the command under literal-equality matching, and the command is denied. -/
theorem isCommandAllowed_deny_wins_witness :
    isCommandAllowed (fun p c => p == c)
      { allow := ["rm -rf"], deny := ["rm -rf"] } "rm -rf" = false :=
  isCommandAllowed_deny_wins (fun p c => p == c)
    { allow := ["rm -rf"], deny := ["rm -rf"] } "rm -rf" "rm -rf"
    (by decide) (by decide)

/-- Claim C2: `isCommandAllowed` returns `true` only if some allow
pattern matches; when no allow pattern matches — in particular when the
allow list is empty — the command is denied (default deny). -/
theorem isCommandAllowed_default_deny
    (matchString : String → String → Bool) (rules : SecurityRules)
    (command : String) :
    (isCommandAllowed matchString rules command = true →
      ∃ p ∈ rules.allow, matchString p command = true)
    ∧ ((∀ p ∈ rules.allow, matchString p command = false) →
      isCommandAllowed matchString rules command = false)
    ∧ (rules.allow = [] → isCommandAllowed matchString rules command = false) := by
  unfold isCommandAllowed
  split
  · exact ⟨fun h => absurd h (by simp), fun _ => rfl, fun _ => rfl⟩
  · refine ⟨fun h => List.any_eq_true.mp h, fun h => ?_, fun h => by simp [h]⟩
    simp only [List.any_eq_false]
    intro p hp
    simp [h p hp]

/-- Witness for C2: with an empty allow list the command is denied even
though the deny list is empty too. -/
theorem isCommandAllowed_default_deny_witness :
    isCommandAllowed (fun p c => p == c) { allow := [], deny := [] } "ls" = false :=
  (isCommandAllowed_default_deny (fun p c => p == c)
    { allow := [], deny := [] } "ls").2.2 rfl

/-- Claim C9: `Validate` returns an error whenever the agent ID or the
API key is empty, and accepts a configuration only if both are
non-empty. -/
theorem validate_rejects_empty_credentials (c : AgentConfig) :
    ((c.agent.id = "" ∨ c.agent.apiKey = "") → c.Validate ≠ none)
    ∧ (c.Validate = none → c.agent.id ≠ "" ∧ c.agent.apiKey ≠ "") := by
  unfold AgentConfig.Validate
  constructor
  · rintro (h | h)
    · simp [h]
    · by_cases h1 : c.agent.id = "" <;> simp [h1, h]
  · intro h
    by_cases h1 : c.agent.id = "" <;> by_cases h2 : c.agent.apiKey = "" <;>
      simp [h1, h2] at h ⊢

/-- Witness for C9: the default configuration has an empty agent ID and
is rejected. -/
theorem validate_rejects_empty_credentials_witness :
    DefaultConfig.Validate ≠ none :=
  (validate_rejects_empty_credentials DefaultConfig).1 (Or.inl rfl)

/-- Claim C8: when the agent binary is not installed, the uninstall
command succeeds immediately and the whole state — configuration file,
service file, directories — is unchanged. -/
theorem agentUninstall_noop_when_not_installed
    (env : UninstallEnv) (fs : UninstallFs)
    (hplat : env.platformOk = true) (hbin : fs.binary = none) :
    runAgentUninstall env fs = (none, fs) := by
  unfold runAgentUninstall
  simp [hplat, hbin]

/-- Witness for C8: a state with no binary but a configuration file, a
service file and all three directories present is returned unchanged. -/
theorem agentUninstall_noop_when_not_installed_witness :
    runAgentUninstall
      { platformOk := true, force := true, response := "y",
        systemdAvailable := true, serviceUninstallOk := true,
        removeBinaryOk := true, removeConfigOk := true,
        libDirEmpty := true, configDirEmpty := true, logDirEmpty := true }
      { binary := none, configFile := some DefaultConfig, serviceFile := some 1,
        libDir := true, configDir := true, logDir := true } =
      (none,
        { binary := none, configFile := some DefaultConfig, serviceFile := some 1,
          libDir := true, configDir := true, logDir := true }) :=
  agentUninstall_noop_when_not_installed _ _ rfl rfl

/-- Claim C7: when the agent binary is already installed and `--force`
is absent, install stops with an error after the idempotent
directory-creation step: nothing is downloaded and the binary and
configuration file are unchanged; with `--force` it proceeds to the
download. -/
theorem agentInstall_idempotent_unless_force
    (env : InstallEnv) (fs : InstallFs) (body : Nat) (b : FileData)
    (hplat : env.platformOk = true) (hmk : env.mkdirOk = true)
    (hbin : fs.binary = some b) :
    (env.force = false →
      runAgentInstall env fs body =
        { result := some "agent is already installed. Use --force to reinstall"
          fs := { fs with dirsCreated := true }
          downloadAttempted := false })
    ∧ (env.force = true → (runAgentInstall env fs body).downloadAttempted = true) := by
  constructor
  · intro hf
    unfold runAgentInstall
    simp [hplat, hmk, hbin, hf]
  · intro hf
    unfold runAgentInstall
    by_cases hd : env.downloadOk
    · cases hval : (buildInstallConfig env).Validate with
      | some e => simp [hplat, hmk, hbin, hf, hd, hval]
      | none =>
        by_cases hs : env.saveOk <;> simp [hplat, hmk, hbin, hf, hd, hval, hs]
    · simp [hplat, hmk, hbin, hf, hd]

/-- Witness for C7: with the binary already installed and no `--force`,
the run returns the already-installed error, leaves the binary and the
missing configuration file alone, and only marks the directories as
created. -/
theorem agentInstall_idempotent_unless_force_witness :
    runAgentInstall
      { platformOk := true, mkdirOk := true, force := false,
        agentID := "agent_123", agentAPIKey := "fp_abc", socketServer := "",
        viperSocketServer := "", downloadOk := true, saveOk := true }
      { binary := some { content := 5, exec := true }, configFile := none,
        dirsCreated := false } 9 =
      { result := some "agent is already installed. Use --force to reinstall"
        fs := { binary := some { content := 5, exec := true }, configFile := none,
                dirsCreated := true }
        downloadAttempted := false } :=
  (agentInstall_idempotent_unless_force _ _ 9 { content := 5, exec := true }
    rfl rfl rfl).1 rfl

/-- Helper for C3: OS normalisation only ever yields the three
documented names. -/
theorem normalizeOS_mem (goos os : String) (h : normalizeOS goos = .ok os) :
    os ∈ ["linux", "darwin", "windows"] := by
  unfold normalizeOS at h
  split_ifs at h <;> injection h with h' <;> subst h' <;> decide

/-- Helper for C3: architecture normalisation only ever yields the four
documented names. -/
theorem normalizeArch_mem (goarch arch : String) (h : normalizeArch goarch = .ok arch) :
    arch ∈ ["amd64", "arm64", "386", "arm"] := by
  unfold normalizeArch at h
  split_ifs at h <;> injection h with h' <;> subst h' <;> decide

/-- Claim C3 counterexample: for the supported pair (windows, amd64) and
the pinned version `"v1.2.3"`, the URL the code builds is not the URL
the spec's pattern `{base}/{version}/download/{binary-name}-{os}-{arch}[.exe]`
describes — the code puts the download segment before the version
segment and never appends `.exe`. -/
theorem downloadURL_spec_pattern_refuted :
    GetFixPanicAgentDownloadURL "windows" "amd64" "v1.2.3" ≠
      specClaimedDownloadURL "windows" "amd64" "v1.2.3" := by
  decide

/-- Claim C3 (amended): for every supported (OS, arch) pair the URL is
`{base}/latest/download/fixpanic-connectivity-layer-{os}-{arch}` for
version `"latest"` and
`{base}/download/{version}/fixpanic-connectivity-layer-{os}-{arch}` for a
pinned version (the download segment precedes the version segment), and
the artifact name in the URL ends in the normalized architecture — it
never carries a `.exe` suffix, Windows included. -/
theorem downloadURL_actual_pattern (goos goarch version os arch : String)
    (h : GetFixPanicAgentPlatformInfo goos goarch = .ok (os, arch)) :
    GetFixPanicAgentDownloadURL goos goarch version =
      .ok (if version == "latest" then
            agentReleasesBaseURL ++ "/latest/download/fixpanic-connectivity-layer-"
              ++ os ++ "-" ++ arch
          else
            agentReleasesBaseURL ++ "/download/" ++ version
              ++ "/fixpanic-connectivity-layer-" ++ os ++ "-" ++ arch)
    ∧ os ∈ ["linux", "darwin", "windows"]
    ∧ arch ∈ ["amd64", "arm64", "386", "arm"] := by
  have hos : normalizeOS goos = .ok os := by
    unfold GetFixPanicAgentPlatformInfo at h
    cases h1 : normalizeOS goos with
    | error e => rw [h1] at h; cases h
    | ok o =>
      rw [h1] at h
      cases h2 : normalizeArch goarch with
      | error e => rw [h2] at h; cases h
      | ok a => rw [h2] at h; cases h; rfl
  have harch : normalizeArch goarch = .ok arch := by
    unfold GetFixPanicAgentPlatformInfo at h
    cases h1 : normalizeOS goos with
    | error e => rw [h1] at h; cases h
    | ok o =>
      rw [h1] at h
      cases h2 : normalizeArch goarch with
      | error e => rw [h2] at h; cases h
      | ok a => rw [h2] at h; cases h; rfl
  refine ⟨?_, normalizeOS_mem goos os hos, normalizeArch_mem goarch arch harch⟩
  unfold GetFixPanicAgentDownloadURL
  rw [h]
  by_cases hv : (version == "latest") = true <;> simp [hv]

/-- Witness for C3 (amended): at (windows, amd64) and version
`"v1.2.3"` the second URL form is produced and the artifact name ends in
`amd64`, not `.exe`. -/
theorem downloadURL_actual_pattern_witness :
    GetFixPanicAgentDownloadURL "windows" "amd64" "v1.2.3" =
      .ok (if ("v1.2.3" : String) == "latest" then
            agentReleasesBaseURL ++ "/latest/download/fixpanic-connectivity-layer-"
              ++ "windows" ++ "-" ++ "amd64"
          else
            agentReleasesBaseURL ++ "/download/" ++ "v1.2.3"
              ++ "/fixpanic-connectivity-layer-" ++ "windows" ++ "-" ++ "amd64")
    ∧ ("windows" : String) ∈ ["linux", "darwin", "windows"]
    ∧ ("amd64" : String) ∈ ["amd64", "arm64", "386", "arm"] :=
  downloadURL_actual_pattern "windows" "amd64" "v1.2.3" "windows" "amd64" rfl

/-- Claim C4 counterexample: in the successful run of
`DownloadFixPanicAgent` the chmod is applied to the temporary file
before the rename, so the trace differs from the
"temp-file-then-rename, then chmod +x" sequence the claim states. -/
theorem download_chmod_precedes_rename :
    (DownloadFixPanicAgent
        { httpOk := true, statusOk := true, createOk := true,
          copyOk := true, chmodOk := true, renameOk := true }
        { tmp := none, final := none } 7).result = none
    ∧ (DownloadFixPanicAgent
        { httpOk := true, statusOk := true, createOk := true,
          copyOk := true, chmodOk := true, renameOk := true }
        { tmp := none, final := none } 7).trace ≠ specClaimedDownloadTrace := by
  decide

/-- Claim C4 (amended): `DownloadFixPanicAgent` writes the body to the
temporary file, chmods the temporary file and then installs it
atomically via rename; whenever it fails after the temporary file was
created, the temporary file is removed, an error is returned and the
final binary path is unchanged (the final path is also unchanged by the
earlier failures, which never create the temporary file). -/
theorem download_atomic_install (env : DlEnv) (fs : DlFs) (body : Nat) :
    ((DownloadFixPanicAgent env fs body).result ≠ none →
      (DownloadFixPanicAgent env fs body).fs.final = fs.final
      ∧ (DlEv.createTmp ∈ (DownloadFixPanicAgent env fs body).trace →
          (DownloadFixPanicAgent env fs body).fs.tmp = none))
    ∧ ((DownloadFixPanicAgent env fs body).result = none →
      (DownloadFixPanicAgent env fs body).fs =
        { tmp := none, final := some { content := body, exec := true } }
      ∧ (DownloadFixPanicAgent env fs body).trace =
        [.createTmp, .copyBody, .chmodTmp, .renameTmpToFinal]) := by
  obtain ⟨h1, h2, h3, h4, h5, h6⟩ := env
  cases h1 <;> cases h2 <;> cases h3 <;> cases h4 <;> cases h5 <;> cases h6 <;>
    simp [DownloadFixPanicAgent]

/-- Witness for C4 (amended): a failing rename removes the temporary
file, reports an error, and leaves the previously installed binary at
the final path. -/
theorem download_atomic_install_witness :
    ((DownloadFixPanicAgent
        { httpOk := true, statusOk := true, createOk := true,
          copyOk := true, chmodOk := true, renameOk := false }
        { tmp := none, final := some { content := 3, exec := true } } 7).fs.final =
      some { content := 3, exec := true })
    ∧ ((DlEv.createTmp ∈ (DownloadFixPanicAgent
        { httpOk := true, statusOk := true, createOk := true,
          copyOk := true, chmodOk := true, renameOk := false }
        { tmp := none, final := some { content := 3, exec := true } } 7).trace →
      (DownloadFixPanicAgent
        { httpOk := true, statusOk := true, createOk := true,
          copyOk := true, chmodOk := true, renameOk := false }
        { tmp := none, final := some { content := 3, exec := true } } 7).fs.tmp = none)) :=
  (download_atomic_install
    { httpOk := true, statusOk := true, createOk := true,
      copyOk := true, chmodOk := true, renameOk := false }
    { tmp := none, final := some { content := 3, exec := true } } 7).1 (by decide)

/-- Claim C5 counterexample: one agent process is running, its stop
fails, the binary replacement succeeds — the upgrade does not restart
the agent, but the agent is not "left stopped afterwards": the process
that could not be stopped is still running (on the old binary). -/
theorem upgrade_unstopped_agent_keeps_running :
    (runAgentUpgrade
      { platformOk := true, installed := true, pidsOk := true, pids := [1],
        stopOk := fun _ => false, upgradeOk := true, startOk := true }).startInvoked = false
    ∧ (runAgentUpgrade
      { platformOk := true, installed := true, pidsOk := true, pids := [1],
        stopOk := fun _ => false, upgradeOk := true, startOk := true }).runningAfter = true := by
  decide

/-- Claim C5 (amended): the upgrade invokes the restart step exactly
when the run reached the replacement (platform info available, agent
installed, `EnsureLatestAgent` succeeded) and at least one running agent
process was found and successfully stopped; when no agent process was
running the upgrade never restarts and the agent stays stopped; when
processes were found but none could be stopped the upgrade never
restarts (the surviving processes keep running). -/
theorem upgrade_restart_characterization (env : UpgradeEnv) :
    ((runAgentUpgrade env).startInvoked = true ↔
      env.platformOk = true ∧ env.installed = true ∧ env.upgradeOk = true ∧
        env.pidsOk = true ∧ ∃ p ∈ env.pids, env.stopOk p = true)
    ∧ (env.pids = [] →
      (runAgentUpgrade env).startInvoked = false
      ∧ (runAgentUpgrade env).runningAfter = false)
    ∧ ((∀ p ∈ env.pids, env.stopOk p = false) →
      (runAgentUpgrade env).startInvoked = false) := by
  obtain ⟨hplat, hinst, hpok, pids, stop, hup, hstart⟩ := env
  refine ⟨?_, ?_, ?_⟩
  · cases hplat <;> cases hinst <;> cases hup <;> cases hpok <;>
      simp [runAgentUpgrade, List.isEmpty_iff, List.filter_eq_nil_iff] <;>
      aesop
  · intro h
    cases hplat <;> cases hinst <;> cases hup <;> cases hpok <;>
      simp_all [runAgentUpgrade, List.isEmpty_iff, List.filter_eq_nil_iff]
  · intro h
    cases hplat <;> cases hinst <;> cases hup <;> cases hpok <;>
      simp_all [runAgentUpgrade, List.isEmpty_iff, List.filter_eq_nil_iff]

/-- Witness for C5 (amended): with no agent process running, the upgrade
neither restarts the agent nor leaves any agent process running. -/
theorem upgrade_restart_characterization_witness :
    (runAgentUpgrade
      { platformOk := true, installed := true, pidsOk := true, pids := [],
        stopOk := fun _ => true, upgradeOk := true, startOk := true }).startInvoked = false
    ∧ (runAgentUpgrade
      { platformOk := true, installed := true, pidsOk := true, pids := [],
        stopOk := fun _ => true, upgradeOk := true, startOk := true }).runningAfter = false :=
  (upgrade_restart_characterization
    { platformOk := true, installed := true, pidsOk := true, pids := [],
      stopOk := fun _ => true, upgradeOk := true, startOk := true }).2.1 rfl

/-- Claim C6: `replaceBinary` backs the current binary up to the single
`.backup` file; when the atomic rename of the new binary onto the
current path fails, an error is returned and the current path still
holds the previous binary (restored from the backup when the
backup-restore rename runs, untouched otherwise — a failed rename never
modifies its destination); on success the backup file is removed. -/
theorem replaceBinary_backup_restore (env : RBEnv) (fs : RBFs) (c : FileData)
    (hcur : fs.current = some c) (hcopy : env.copyOk = true)
    (hrm : env.removeOk = true) :
    ((env.renameOk = false ∨ fs.newBin = none) →
      (replaceBinary env fs).1 ≠ none
      ∧ (replaceBinary env fs).2.current = some c)
    ∧ (∀ n, env.renameOk = true → fs.newBin = some n →
      (replaceBinary env fs).1 = none
      ∧ (replaceBinary env fs).2.backup = none
      ∧ (replaceBinary env fs).2.current =
          some (if env.chmodOk then { n with exec := true } else n)) := by
  constructor
  · intro hfail
    unfold replaceBinary
    rcases hfail with hren | hnew
    · by_cases hrest : env.restoreOk <;>
        simp [hcur, hcopy, hren, hrest]
    · by_cases hrest : env.restoreOk <;>
        simp [hcur, hcopy, hnew, hrest]
  · intro n hren hnew
    unfold replaceBinary
    by_cases hch : env.chmodOk <;>
      simp [hcur, hcopy, hrm, hren, hnew, hch]

/-- Witness for C6: with a backup copy made and the rename failing, an
error comes back and the current path still holds the previous binary. -/
theorem replaceBinary_backup_restore_witness :
    (replaceBinary
      { copyOk := true, renameOk := false, restoreOk := true,
        chmodOk := true, removeOk := true }
      { current := some { content := 5, exec := true },
        newBin := some { content := 9, exec := false }, backup := none }).1 ≠ none
    ∧ (replaceBinary
      { copyOk := true, renameOk := false, restoreOk := true,
        chmodOk := true, removeOk := true }
      { current := some { content := 5, exec := true },
        newBin := some { content := 9, exec := false }, backup := none }).2.current =
      some { content := 5, exec := true } :=
  (replaceBinary_backup_restore
    { copyOk := true, renameOk := false, restoreOk := true,
      chmodOk := true, removeOk := true }
    { current := some { content := 5, exec := true },
      newBin := some { content := 9, exec := false }, backup := none }
    { content := 5, exec := true } rfl rfl rfl).1 (Or.inl rfl)

/-- Helper for C10: if the length-`substr.length` slice of `s` at
offset `i` equals `substr`, then `substr` occurs inside `s`. -/
theorem isSubstringOf_of_slice (s substr : List Char) (i : Nat)
    (h : (s.drop i).take substr.length = substr) : IsSubstringOf substr s := by
  refine ⟨s.take i, (s.drop i).drop substr.length, ?_⟩
  conv_lhs => rw [← List.take_append_drop i s]
  conv_lhs => rw [← List.take_append_drop substr.length (s.drop i)]
  rw [h]
  simp [List.append_assoc]

/-- Helper for C10: an occurrence of `substr` strictly shorter than `s`
is found by the `containsSubstring` scan. -/
theorem containsSubstring_of_parts (s substr pre post : List Char)
    (hparts : s = pre ++ substr ++ post) (hlt : substr.length < s.length) :
    containsSubstring s substr = true := by
  unfold containsSubstring
  rw [if_pos (Nat.le_of_lt hlt)]
  apply List.any_eq_true.mpr
  refine ⟨pre.length, List.mem_range.mpr ?_, ?_⟩
  · subst hparts
    simp [List.length_append]
    omega
  · subst hparts
    have h1 : (pre ++ substr ++ post).drop pre.length = substr ++ post := by
      rw [List.append_assoc]
      exact List.drop_left pre (substr ++ post)
    rw [h1, List.take_left substr post]
    simp

/-- Claim C10: the hand-written `contains` helper decides exactly
standard substring containment: it returns `true` iff `substr` occurs
as a contiguous substring of `s` (so the empty substring is always
contained). -/
theorem contains_iff_substring (s substr : List Char) :
    contains s substr = true ↔ IsSubstringOf substr s := by
  constructor
  · intro h
    unfold contains at h
    simp only [Bool.and_eq_true, Bool.or_eq_true, decide_eq_true_eq, beq_iff_eq] at h
    obtain ⟨hlen, h2⟩ := h
    rcases h2 with heq | ⟨hlt, h3⟩
    · exact ⟨[], [], by simp [heq]⟩
    · rcases h3 with (hpre | hsuf) | hsub
      · apply isSubstringOf_of_slice s substr 0
        simpa using hpre
      · apply isSubstringOf_of_slice s substr (s.length - substr.length)
        rw [hsuf]
        exact List.take_length substr
      · unfold containsSubstring at hsub
        rw [if_pos hlen] at hsub
        obtain ⟨i, _, hi⟩ := List.any_eq_true.mp hsub
        exact isSubstringOf_of_slice s substr i (by simpa using hi)
  · rintro ⟨pre, post, hparts⟩
    have hlen : substr.length ≤ s.length := by
      subst hparts
      simp [List.length_append]
      omega
    unfold contains
    simp only [Bool.and_eq_true, Bool.or_eq_true, decide_eq_true_eq, beq_iff_eq]
    refine ⟨hlen, ?_⟩
    rcases Nat.lt_or_ge substr.length s.length with hlt | hge
    · exact Or.inr ⟨hlt, Or.inr
        (containsSubstring_of_parts s substr pre post hparts hlt)⟩
    · left
      have heq : s.length = substr.length := Nat.le_antisymm hge hlen
      subst hparts
      have hzero : pre.length = 0 ∧ post.length = 0 := by
        simp [List.length_append] at heq
        omega
      simp [List.eq_nil_of_length_eq_zero hzero.1,
        List.eq_nil_of_length_eq_zero hzero.2]

/-- Witness for C10: `contains "abcd" "bc"` evaluates to `true` and the
equivalence turns that into an occurrence of `"bc"` inside `"abcd"`. -/
theorem contains_iff_substring_witness :
    IsSubstringOf ['b', 'c'] ['a', 'b', 'c', 'd'] :=
  (contains_iff_substring ['a', 'b', 'c', 'd'] ['b', 'c']).mp (by decide)

end FixPanic
